import Mathlib

/-!
Verification of the classification-and-refresh pipeline of `monitor.py`
(Military Monitor, a terminal dashboard polling a military-aircraft feed).

The Python source is shallowly embedded: pure functions become Lean
functions, JSON field access and Python truthiness are modelled
explicitly, numbers are rationals, fallible parsing returns `Option`,
and the `try/except` refresh cycle becomes a function from a fetch
result (`Except`) to the resulting snapshot and log events.
-/

namespace MilitaryMonitor

/-- Python `s.startswith(p)`: `p` is a literal prefix of `s`.
Modelled on the underlying character lists. -/
def startswith (s p : String) : Bool :=
  p.data.isPrefixOf s.data

/-- Python `s.upper()`, modelled character-wise (all type codes and table
keys are ASCII, where Python `upper` uppercases each character). -/
def upper (s : String) : String := String.mk (s.data.map Char.toUpper)

/-- Python `s.strip()`: remove leading and trailing whitespace, modelled
on the underlying character list. -/
def pyStrip (s : String) : String :=
  String.mk (((s.data.dropWhile Char.isWhitespace).reverse.dropWhile
    Char.isWhitespace).reverse)

/-- Auxiliary scan for `pyReplace`: replace each non-overlapping,
left-to-right occurrence of `pat` (nonempty) by `rep`.  The fuel
argument (structural recursion, so the kernel can evaluate it) is the
input length: each step consumes at least one character. -/
def replaceAux (pat rep : List Char) : Nat → List Char → List Char
  | _, [] => []
  | 0, l => l
  | fuel + 1, c :: cs =>
    if pat ≠ [] ∧ pat.isPrefixOf (c :: cs) then
      rep ++ replaceAux pat rep fuel ((c :: cs).drop pat.length)
    else
      c :: replaceAux pat rep fuel cs

/-- Python `s.replace(pat, rep)` for a nonempty pattern. -/
def pyReplace (s pat rep : String) : String :=
  String.mk (replaceAux pat.data rep.data s.data.length s.data)

/-- `FilterPanel.TYPE_TO_CATEGORY` from `monitor.py` lines 75-97: the
taxonomy table as an ordered association list, in the declaration order of
the Python dict literal (Python dicts preserve insertion order; all keys
are distinct, so the literal order is the iteration order). -/
def TYPE_TO_CATEGORY : List (String × String) :=
  [("F14", "fighter"), ("F15", "fighter"), ("F16", "fighter"), ("F18", "fighter"),
   ("F22", "fighter"), ("F35", "fighter"), ("FA18", "fighter"), ("F/A", "fighter"),
   ("TYPH", "fighter"), ("EUFI", "fighter"), ("TORN", "fighter"), ("GRIP", "fighter"),
   ("SU27", "fighter"), ("SU30", "fighter"), ("SU35", "fighter"), ("SU57", "fighter"),
   ("MIG29", "fighter"), ("MIG31", "fighter"), ("MIG35", "fighter"), ("J20", "fighter"),
   ("B1", "bomber"), ("B2", "bomber"), ("B52", "bomber"),
   ("TU95", "bomber"), ("TU160", "bomber"), ("TU22", "bomber"), ("H6", "bomber"),
   ("KC10", "tanker"), ("KC135", "tanker"), ("KC46", "tanker"),
   ("K35R", "tanker"), ("A332", "tanker"), ("IL78", "tanker"), ("A310", "tanker"),
   ("C130", "transport"), ("C17", "transport"), ("C5", "transport"),
   ("A400", "transport"), ("IL76", "transport"), ("AN12", "transport"), ("AN22", "transport"),
   ("AN124", "transport"), ("AN225", "transport"),
   ("E3", "awacs"), ("E8", "awacs"), ("A50", "awacs"), ("KJ", "awacs"),
   ("RJ35", "awacs"), ("RC135", "special"), ("U2", "special"),
   ("H60", "helicopter"), ("AH64", "helicopter"), ("CH47", "helicopter"),
   ("UH60", "helicopter"), ("KA52", "helicopter"), ("MI24", "helicopter"),
   ("MI28", "helicopter"), ("MI8", "helicopter"),
   ("RQ4", "uav"), ("MQ9", "uav"), ("GLOB", "uav"), ("REAP", "uav"),
   ("TB2", "uav"), ("WING", "uav"),
   ("T38", "trainer"), ("HAWK", "trainer"), ("L39", "trainer"), ("M346", "trainer"),
   ("OC135", "special"), ("WC135", "special")]

/-- The `for prefix, cat in TYPE_TO_CATEGORY.items()` loop body of
`map_type_to_category` (lines 129-131): scan the table in order, return the
category of the first entry whose key is a literal prefix of `code`. -/
def lookupLoop (code : String) : List (String × String) → String
  | [] => "other"
  | (p, cat) :: rest => if startswith code p then cat else lookupLoop code rest

/-- `FilterPanel.map_type_to_category` (lines 123-132). `none` models the
Python `None` argument; Python `if not icao_type` is true for both `None`
and the empty string. -/
def map_type_to_category (icao_type : Option String) : String :=
  match icao_type with
  | none => "other"
  | some s => if s = "" then "other" else lookupLoop (upper s) TYPE_TO_CATEGORY

/-- Helper: the scanning loop agrees with a first-match `List.find?`
description of the table lookup. -/
theorem lookupLoop_eq_find (code : String) (l : List (String × String)) :
    lookupLoop code l =
      (match l.find? (fun pc => startswith code pc.1) with
       | some pc => pc.2
       | none => "other") := by
  induction l with
  | nil => rfl
  | cons pc rest ih =>
    by_cases h : startswith code pc.1
    · simp [lookupLoop, List.find?, h]
    · simp only [Bool.not_eq_true] at h
      simp [lookupLoop, List.find?, h, ih]

/-- C1: `map_type_to_category` returns "other" on absent or empty input;
otherwise it uppercases the input and returns the category of the first
taxonomy entry (in table order) whose key is a prefix of the uppercased
code, or "other" when no entry matches.  Totality and determinism are
intrinsic: the embedding is a total Lean function. -/
theorem map_type_to_category_spec :
    map_type_to_category none = "other" ∧
    map_type_to_category (some "") = "other" ∧
    ∀ s : String, s ≠ "" →
      map_type_to_category (some s) =
        (match TYPE_TO_CATEGORY.find? (fun pc => startswith (upper s) pc.1) with
         | some pc => pc.2
         | none => "other") := by
  refine ⟨rfl, rfl, fun s hs => ?_⟩
  simp only [map_type_to_category, if_neg hs]
  exact lookupLoop_eq_find (upper s) TYPE_TO_CATEGORY

/-- C1 witness: the characterization evaluated at the concrete input "f16". -/
theorem map_type_to_category_spec_witness :
    map_type_to_category (some "f16") =
      (match TYPE_TO_CATEGORY.find? (fun pc => startswith (upper "f16") pc.1) with
       | some pc => pc.2
       | none => "other") :=
  map_type_to_category_spec.2.2 "f16" (by decide)

/-- Helper: the scanning loop returns the category at the first matching
index: if index `i` matches and no earlier index does, the loop stops at
`i`. -/
theorem lookupLoop_eq_of_min (code : String) (l : List (String × String)) (i : Nat)
    (hi : i < l.length)
    (hmatch : startswith code (l.getD i ("", "")).1 = true)
    (hmin : ∀ k, k < i → startswith code (l.getD k ("", "")).1 = false) :
    lookupLoop code l = (l.getD i ("", "")).2 := by
  induction l generalizing i with
  | nil => simp at hi
  | cons pc rest ih =>
    cases i with
    | zero =>
      simp only [List.getD_cons_zero] at hmatch ⊢
      simp [lookupLoop, hmatch]
    | succ i' =>
      have hhead : startswith code pc.1 = false := by
        have := hmin 0 (Nat.succ_pos i')
        simpa using this
      simp only [List.getD_cons_succ] at hmatch ⊢
      simp only [lookupLoop, hhead, Bool.false_eq_true, if_false]
      exact ih i' (Nat.lt_of_succ_lt_succ hi) hmatch
        (fun k hk => by simpa using hmin (k + 1) (Nat.succ_lt_succ hk))

/-- Helper: a string whose first character differs from the first character
of `s` is not a prefix of `s`. -/
theorem startswith_false_of_head_ne (s p : String) (c : Char)
    (hs : s.data.head? = some c) (hp : p.data ≠ [])
    (hne : p.data.head? ≠ some c) :
    startswith s p = false := by
  cases hpd : p.data with
  | nil => exact absurd hpd hp
  | cons d pt =>
    cases hsd : s.data with
    | nil => rw [hsd] at hs; simp at hs
    | cons c' st =>
      rw [hsd] at hs
      simp only [List.head?_cons, Option.some.injEq] at hs
      rw [hpd] at hne
      simp only [List.head?_cons, ne_eq, Option.some.injEq] at hne
      subst hs
      simp only [startswith, hpd, hsd, List.isPrefixOf]
      simp [Bool.and_eq_true, beq_iff_eq, hne]

/-- C2: first match in table-declaration order wins.  Part 1: for any code
whose uppercase matches the table entry at index `i` and also a
later-declared entry at index `j > i`, with no entry before `i` matching,
classification returns the category declared at `i`.  Part 2: concretely,
any code whose uppercase begins with "H60" matches both "H6" (index 26,
"bomber") and "H60" (index 50, "helicopter"), and is classified "bomber",
the category of the earlier-declared prefix. -/
theorem classification_tie_break :
    (∀ (code : String) (i j : Nat), i < j → j < TYPE_TO_CATEGORY.length →
      startswith (upper code) (TYPE_TO_CATEGORY.getD i ("", "")).1 = true →
      startswith (upper code) (TYPE_TO_CATEGORY.getD j ("", "")).1 = true →
      (∀ k, k < i → startswith (upper code) (TYPE_TO_CATEGORY.getD k ("", "")).1 = false) →
      map_type_to_category (some code) = (TYPE_TO_CATEGORY.getD i ("", "")).2) ∧
    (∀ code : String, startswith (upper code) "H60" = true →
      map_type_to_category (some code) = "bomber") := by
  constructor
  · intro code i j hij hj hmi _hmj hmin
    have hi : i < TYPE_TO_CATEGORY.length := Nat.lt_trans hij hj
    have hne : code ≠ "" := by
      rintro rfl
      have hkey : (TYPE_TO_CATEGORY.getD i ("", "")).1.data ≠ [] := by
        have hall : ∀ k, k < TYPE_TO_CATEGORY.length →
            (TYPE_TO_CATEGORY.getD k ("", "")).1.data ≠ [] := by decide
        exact hall i hi
      have hud : (upper "").data = [] := by decide
      rw [startswith, hud] at hmi
      cases hkd : (TYPE_TO_CATEGORY.getD i ("", "")).1.data with
      | nil => exact hkey hkd
      | cons a t => rw [hkd] at hmi; simp [List.isPrefixOf] at hmi
    simp only [map_type_to_category, if_neg hne]
    exact lookupLoop_eq_of_min (upper code) TYPE_TO_CATEGORY i hi hmi hmin
  · intro code hu
    have hne : code ≠ "" := by
      rintro rfl
      exact absurd hu (by decide)
    have hpfx : ("H60" : String).data <+: (upper code).data := by
      rw [← List.isPrefixOf_iff_prefix]
      exact hu
    obtain ⟨t, ht⟩ := hpfx
    have hhead : (upper code).data.head? = some 'H' := by
      rw [← ht]; rfl
    have hmatch : startswith (upper code) "H6" = true := by
      rw [startswith, List.isPrefixOf_iff_prefix, ← ht]
      exact ⟨'0' :: t, rfl⟩
    have hmin : ∀ k, k < 26 →
        startswith (upper code) (TYPE_TO_CATEGORY.getD k ("", "")).1 = false := by
      intro k hk
      have hx : ∀ k, k < 26 → (TYPE_TO_CATEGORY.getD k ("", "")).1.data ≠ [] ∧
          (TYPE_TO_CATEGORY.getD k ("", "")).1.data.head? ≠ some 'H' := by decide
      exact startswith_false_of_head_ne (upper code) _ 'H' hhead (hx k hk).1 (hx k hk).2
    have h26 : (TYPE_TO_CATEGORY.getD 26 ("", "")) = ("H6", "bomber") := by decide
    simp only [map_type_to_category, if_neg hne]
    have := lookupLoop_eq_of_min (upper code) TYPE_TO_CATEGORY 26 (by decide)
      (by rw [h26]; exact hmatch) hmin
    rw [this, h26]

/-- C2 witness: the tie-break theorem applied at the concrete code "h60m"
(uppercased "H60M"), which matches "H6" at index 26 and "H60" at index 50;
both parts of the theorem are instantiated. -/
theorem classification_tie_break_witness :
    map_type_to_category (some "h60m") = (TYPE_TO_CATEGORY.getD 26 ("", "")).2 ∧
    map_type_to_category (some "h60m") = "bomber" :=
  ⟨classification_tie_break.1 "h60m" 26 50 (by decide) (by decide) (by decide)
    (by decide) (by decide),
   classification_tie_break.2 "h60m" (by decide)⟩

/-- The dataclass `MilitaryAircraft` (lines 35-44).  Python floats are
modelled as rationals; none of the program's arithmetic on them
(comparisons with 0, integer formatting) distinguishes the two on the
feed's values. -/
structure MilitaryAircraft where
  callsign : String
  aircraft_type : String
  owner : String
  altitude : ℚ
  speed : ℚ
  heading : ℚ
  category : String
  deriving Repr, DecidableEq

/-- A JSON scalar as the feed delivers it for numeric-or-string fields
(`alt_baro` is a number or the literal string "ground"; `gs` and `track`
are numbers). -/
inductive PyVal where
  | num (q : ℚ)
  | str (s : String)
  deriving Repr, DecidableEq

/-- Python truthiness for the scalars above: `0` and `""` are falsy. -/
def truthy : PyVal → Bool
  | .num q => q ≠ 0
  | .str s => s ≠ ""

/-- Python `x or d` where `x` is `ac.get(key)` (so `none` models an absent
key): returns the default when the value is absent or falsy. -/
def pyOr (v : Option PyVal) (d : PyVal) : PyVal :=
  match v with
  | none => d
  | some x => if truthy x then x else d

/-- Python `x or d` for string-valued fields (`flight`, `t`, `owner`):
absent or empty gives the default. -/
def pyOrStr (v : Option String) (d : String) : String :=
  match v with
  | none => d
  | some s => if s = "" then d else s

/-- Digit list to number, most significant first. -/
def digitsToNat (cs : List Char) : Nat :=
  cs.foldl (fun n c => n * 10 + (c.toNat - ('0').toNat)) 0

/-- Python `float(s)` on a string: optional surrounding whitespace and
sign, then digits with an optional fractional part; anything else raises
`ValueError`, modelled as `none`.  (Exotic accepted forms — exponents,
"inf", "nan" — do not occur in this feed's fields and are modelled as
errors.) -/
def parseFloat (s : String) : Option ℚ :=
  let cs := (pyStrip s).data
  let signAndRest : ℚ × List Char :=
    match cs with
    | '-' :: rest => (-1, rest)
    | '+' :: rest => (1, rest)
    | _ => (1, cs)
  let sign := signAndRest.1
  let body := signAndRest.2
  let intPart := body.takeWhile Char.isDigit
  let rest := body.dropWhile Char.isDigit
  match rest with
  | [] =>
    if intPart = [] then none
    else some (sign * (digitsToNat intPart : ℚ))
  | '.' :: frac =>
    if frac.all Char.isDigit ∧ ¬(intPart = [] ∧ frac = []) then
      some (sign * ((digitsToNat intPart : ℚ) +
        (digitsToNat frac : ℚ) / ((10 : ℚ) ^ frac.length)))
    else none
  | _ => none

/-- Python `float(v)` on the scalars above: numbers pass through, strings
are parsed (raising, i.e. `none`, when non-numeric). -/
def pyFloat : PyVal → Option ℚ
  | .num q => some q
  | .str s => parseFloat s

/-- One raw aircraft entry of the feed payload (`data["ac"][k]`), each
field optional as the API delivers it.  `flight`, `t` and `owner` are
strings in the feed; `alt_baro` may be a number or the string "ground",
and `gs`/`track` are numbers (kept as scalars so that malformed values
are representable). -/
structure RawAC where
  flight : Option String
  t : Option String
  owner : Option String
  alt_baro : Option PyVal
  gs : Option PyVal
  track : Option PyVal
  deriving Repr, DecidableEq

/-- The per-entry body of the `for ac in ac_list` loop of
`fetch_aircraft_data` (lines 276-294): extract fields with their
defaults, classify, and assemble the record.  `none` models a raised
exception (`float` on a non-numeric string), which aborts the whole
loop in the source. -/
def processEntry (ac : RawAC) : Option MilitaryAircraft :=
  let callsign := pyStrip (pyOrStr ac.flight "NO CALL")
  let icao_type := pyOrStr ac.t "UNKNOWN"
  let owner := pyOrStr ac.owner "Unknown"
  let altitude? : Option ℚ :=
    if ac.alt_baro = some (.str "ground") then some 0
    else pyFloat (pyOr ac.alt_baro (.num 0))
  let speed? := pyFloat (pyOr ac.gs (.num 0))
  let heading? := pyFloat (pyOr ac.track (.num 0))
  match altitude?, speed?, heading? with
  | some altitude, some speed, some heading =>
    some { callsign := callsign
           aircraft_type := icao_type
           owner := owner
           altitude := altitude
           speed := speed
           heading := heading
           category := map_type_to_category (some icao_type) }
  | _, _, _ => none

/-- The `for ac in ac_list` loop of `fetch_aircraft_data` building
`new_aircraft` in feed order; `none` models an exception raised at some
entry, which aborts the whole loop before the snapshot assignment. -/
def buildAircraft : List RawAC → Option (List MilitaryAircraft)
  | [] => some []
  | ac :: rest =>
    match processEntry ac, buildAircraft rest with
    | some rec, some recs => some (rec :: recs)
    | _, _ => none

/-- `MilitaryMonitor.fetch_aircraft_data` (lines 267-301) as a function
from the fetch outcome to the new snapshot and the log events of this
call.  `Except.error` models a network/timeout/HTTP exception from
`requests`; a `none` from `processEntry` models an exception inside the
parsing loop.  In both cases the `except` block logs one "API Error"
event and assigns the empty list; on success the fully built list is
assigned and one "Fetched n" event is logged.  The local `new_aircraft`
list means a mid-loop exception leaves the snapshot to be replaced by
`[]`, never by a partially built list. -/
def fetch_aircraft_data (resp : Except String (List RawAC)) :
    List MilitaryAircraft × List String :=
  match resp with
  | .error e => ([], ["API Error: " ++ e])
  | .ok ac_list =>
    match buildAircraft ac_list with
    | some new_aircraft =>
      (new_aircraft, ["Fetched " ++ toString ac_list.length ++ " military aircraft"])
    | none => ([], ["API Error: could not convert string to float"])

/-- C3: on any fetch failure — a transport error (`Except.error`) or a
malformed payload (some entry's numeric field fails `float`, e.g. a
non-numeric non-"ground" `alt_baro`) — the refresh replaces the snapshot
with the empty list and records exactly one log event; and in every case
the snapshot is never partially updated: it is either empty or the fully
parsed list.  The embedding is a total function, so the failure neither
crashes nor aborts the caller (`fetch_and_update` and the scheduling
loop proceed with the returned value). -/
theorem fetch_failure_clears_snapshot :
    ∀ resp : Except String (List RawAC),
      (((∃ e, resp = .error e) ∨
          (∃ l, resp = .ok l ∧ buildAircraft l = none)) →
        (fetch_aircraft_data resp).1 = [] ∧
        (fetch_aircraft_data resp).2.length = 1) ∧
      ((fetch_aircraft_data resp).1 = [] ∨
        ∃ l, resp = .ok l ∧
          buildAircraft l = some (fetch_aircraft_data resp).1) := by
  intro resp
  cases resp with
  | error e => exact ⟨fun _ => ⟨rfl, rfl⟩, Or.inl rfl⟩
  | ok l =>
    cases h : buildAircraft l with
    | none =>
      refine ⟨fun _ => ?_, Or.inl ?_⟩ <;> simp [fetch_aircraft_data, h]
    | some xs =>
      constructor
      · rintro (⟨e, he⟩ | ⟨l', hl', hnone⟩)
        · exact absurd he (by simp)
        · cases hl'
          rw [h] at hnone
          exact absurd hnone (by simp)
      · exact Or.inr ⟨l, rfl, by simp [fetch_aircraft_data, h]⟩

/-- C3 witness: a payload whose single entry has the non-numeric,
non-"ground" altitude "abc" clears the snapshot and logs one event. -/
theorem fetch_failure_clears_snapshot_witness :
    (fetch_aircraft_data (.ok [⟨none, none, none, some (.str "abc"), none, none⟩])).1 = [] ∧
    (fetch_aircraft_data (.ok [⟨none, none, none, some (.str "abc"), none, none⟩])).2.length = 1 :=
  (fetch_failure_clears_snapshot _).1
    (Or.inr ⟨[⟨none, none, none, some (.str "abc"), none, none⟩], rfl, by decide⟩)

/-- Helper: characterization of a successful `processEntry`, naming each
field of the produced record. -/
theorem processEntry_some_iff (ac : RawAC) (rec : MilitaryAircraft) :
    processEntry ac = some rec ↔
      (if ac.alt_baro = some (.str "ground") then some (0 : ℚ)
       else pyFloat (pyOr ac.alt_baro (.num 0))) = some rec.altitude ∧
      pyFloat (pyOr ac.gs (.num 0)) = some rec.speed ∧
      pyFloat (pyOr ac.track (.num 0)) = some rec.heading ∧
      rec.callsign = pyStrip (pyOrStr ac.flight "NO CALL") ∧
      rec.aircraft_type = pyOrStr ac.t "UNKNOWN" ∧
      rec.owner = pyOrStr ac.owner "Unknown" ∧
      rec.category = map_type_to_category (some (pyOrStr ac.t "UNKNOWN")) := by
  obtain ⟨rc, rt, ro, ra, rs, rh, rcat⟩ := rec
  simp only [processEntry]
  rcases h1 : (if ac.alt_baro = some (.str "ground") then some (0 : ℚ)
      else pyFloat (pyOr ac.alt_baro (.num 0))) with _ | a <;>
    rcases h2 : pyFloat (pyOr ac.gs (.num 0)) with _ | s <;>
      rcases h3 : pyFloat (pyOr ac.track (.num 0)) with _ | hd <;>
        · simp_all [MilitaryAircraft.mk.injEq]
          try aesop

/-- C7 counterexample: the claim says every constructed record has a
non-negative altitude and a heading in [0,360).  A feed entry with
`alt_baro = -100` and `track = 400` is processed successfully into a
record with altitude -100 < 0 and heading 400 ∉ [0,360): the code applies
`float` with no sign or range constraint. -/
theorem record_bounds_counterexample :
    processEntry ⟨none, none, none, some (.num (-100)), none, some (.num 400)⟩ =
      some { callsign := "NO CALL", aircraft_type := "UNKNOWN", owner := "Unknown",
             altitude := -100, speed := 0, heading := 400, category := "other" } ∧
    ¬((0 : ℚ) ≤ -100) ∧ ¬((400 : ℚ) < 360) := by
  refine ⟨by decide, by norm_num, by norm_num⟩

/-- C7 amended: every successfully constructed record satisfies the
defaulting rules — altitude is 0 when `alt_baro` is the string "ground"
or absent and equals the numeric feed value otherwise (with no
non-negativity constraint); speed and heading default to 0 when absent
and equal the numeric feed value otherwise (with no sign constraint and
no [0,360) normalization of the heading). -/
theorem record_field_defaults :
    ∀ (ac : RawAC) (rec : MilitaryAircraft), processEntry ac = some rec →
      (ac.alt_baro = some (.str "ground") → rec.altitude = 0) ∧
      (ac.alt_baro = none → rec.altitude = 0) ∧
      (∀ q : ℚ, ac.alt_baro = some (.num q) → rec.altitude = q) ∧
      (ac.gs = none → rec.speed = 0) ∧
      (∀ q : ℚ, ac.gs = some (.num q) → rec.speed = q) ∧
      (ac.track = none → rec.heading = 0) ∧
      (∀ q : ℚ, ac.track = some (.num q) → rec.heading = q) := by
  intro ac rec h
  rw [processEntry_some_iff] at h
  obtain ⟨ha, hs, hh, -, -, -, -⟩ := h
  refine ⟨?_, ?_, ?_, ?_, ?_, ?_, ?_⟩
  · intro hg
    rw [if_pos hg] at ha
    exact (Option.some.injEq _ _ ▸ ha).symm
  · intro hg
    rw [hg] at ha
    simp [pyOr, pyFloat] at ha
    exact ha.symm
  · intro q hq
    rw [hq] at ha
    by_cases h0 : q = 0
    · subst h0
      simp [pyOr, truthy, pyFloat] at ha
      exact ha.symm
    · simp [pyOr, truthy, pyFloat, h0] at ha
      exact ha.symm
  · intro hg
    rw [hg] at hs
    simp [pyOr, pyFloat] at hs
    exact hs.symm
  · intro q hq
    rw [hq] at hs
    by_cases h0 : q = 0
    · subst h0
      simp [pyOr, truthy, pyFloat] at hs
      exact hs.symm
    · simp [pyOr, truthy, pyFloat, h0] at hs
      exact hs.symm
  · intro hg
    rw [hg] at hh
    simp [pyOr, pyFloat] at hh
    exact hh.symm
  · intro q hq
    rw [hq] at hh
    by_cases h0 : q = 0
    · subst h0
      simp [pyOr, truthy, pyFloat] at hh
      exact hh.symm
    · simp [pyOr, truthy, pyFloat, h0] at hh
      exact hh.symm

/-- C7 amended witness: the defaulting rules applied to a concrete entry
with absent altitude, speed and heading fields. -/
theorem record_field_defaults_witness :
    ({ callsign := "NO CALL", aircraft_type := "UNKNOWN", owner := "Unknown",
       altitude := 0, speed := 0, heading := 0,
       category := "other" } : MilitaryAircraft).altitude = 0 ∧
    ({ callsign := "NO CALL", aircraft_type := "UNKNOWN", owner := "Unknown",
       altitude := 0, speed := 0, heading := 0,
       category := "other" } : MilitaryAircraft).speed = 0 ∧
    ({ callsign := "NO CALL", aircraft_type := "UNKNOWN", owner := "Unknown",
       altitude := 0, speed := 0, heading := 0,
       category := "other" } : MilitaryAircraft).heading = 0 := by
  have h := record_field_defaults ⟨none, none, none, none, none, none⟩
    { callsign := "NO CALL", aircraft_type := "UNKNOWN", owner := "Unknown",
      altitude := 0, speed := 0, heading := 0, category := "other" } (by decide)
  exact ⟨h.2.1 rfl, h.2.2.2.1 rfl, h.2.2.2.2.2.1 rfl⟩

/-- C8 counterexample: the claim says a blank (whitespace-only) callsign
field yields the sentinel "NO CALL".  A whitespace-only `flight` value is
truthy in Python, so `(flight or "NO CALL").strip()` strips it to the
empty string instead. -/
theorem callsign_blank_counterexample :
    Option.map MilitaryAircraft.callsign
      (processEntry ⟨some " ", none, none, none, none, none⟩) = some "" ∧
    ("" : String) ≠ "NO CALL" := by
  refine ⟨by decide, by decide⟩

/-- C8 amended: an absent or empty callsign field yields the sentinel
"NO CALL"; any other value (including whitespace-only strings) is kept
and stripped of surrounding whitespace, so a whitespace-only callsign
becomes the empty string, not the sentinel. -/
theorem callsign_defaults :
    ∀ (ac : RawAC) (rec : MilitaryAircraft), processEntry ac = some rec →
      ((ac.flight = none ∨ ac.flight = some "") → rec.callsign = "NO CALL") ∧
      (∀ s, ac.flight = some s → s ≠ "" → rec.callsign = pyStrip s) := by
  intro ac rec h
  rw [processEntry_some_iff] at h
  have hc := h.2.2.2.1
  constructor
  · rintro (hf | hf) <;> rw [hf] at hc <;> simpa [pyOrStr, pyStrip] using hc
  · intro s hf hs
    rw [hf] at hc
    simpa [pyOrStr, hs] using hc

/-- C8 amended witness: concrete instances — an absent callsign gives
"NO CALL", and the whitespace-only callsign " " gives the empty string. -/
theorem callsign_defaults_witness :
    ({ callsign := "NO CALL", aircraft_type := "UNKNOWN", owner := "Unknown",
       altitude := 0, speed := 0, heading := 0,
       category := "other" } : MilitaryAircraft).callsign = "NO CALL" ∧
    ({ callsign := "", aircraft_type := "UNKNOWN", owner := "Unknown",
       altitude := 0, speed := 0, heading := 0,
       category := "other" } : MilitaryAircraft).callsign = pyStrip " " := by
  have h1 := callsign_defaults ⟨none, none, none, none, none, none⟩
    { callsign := "NO CALL", aircraft_type := "UNKNOWN", owner := "Unknown",
      altitude := 0, speed := 0, heading := 0, category := "other" } (by decide)
  have h2 := callsign_defaults ⟨some " ", none, none, none, none, none⟩
    { callsign := "", aircraft_type := "UNKNOWN", owner := "Unknown",
      altitude := 0, speed := 0, heading := 0, category := "other" } (by decide)
  exact ⟨h1.1 (Or.inl rfl), h2.2 " " rfl (by decide)⟩

/-- Python float formatting `f"{x:.0f}"` rounds half-to-even to an
integer; this is that rounding on rationals, computed on the reduced
numerator and denominator (the denominator is positive, so Euclidean
division is floor division, and the fractional part `rnum / den` is
compared with 1/2 by cross-multiplication). -/
def pyRound0 (q : ℚ) : Int :=
  let f : Int := q.num.ediv q.den
  let rnum : Int := q.num - f * q.den
  if 2 * rnum < q.den then f
  else if 2 * rnum > q.den then f + 1
  else if f % 2 = 0 then f else f + 1

/-- Insert a comma after every third character of a reversed digit list
(the grouping of Python's `,` format option). -/
def group3 : List Char → List Char
  | a :: b :: c :: rest =>
    match rest with
    | [] => [a, b, c]
    | _ :: _ => a :: b :: c :: ',' :: group3 rest
  | l => l

/-- Python `f"{x:,.0f}"`: round half-to-even to an integer and group the
digits in thousands; a negative value (including one rounding to 0)
keeps its minus sign. -/
def formatComma0 (q : ℚ) : String :=
  let n := pyRound0 q
  let sign := if n < 0 ∨ (n = 0 ∧ q < 0) then "-" else ""
  sign ++ String.mk (group3 (toString n.natAbs).data.reverse).reverse

/-- Python `f"{x:.0f}"`: round half-to-even to an integer, no grouping. -/
def formatF0 (q : ℚ) : String :=
  let n := pyRound0 q
  let sign := if n < 0 ∨ (n = 0 ∧ q < 0) then "-" else ""
  sign ++ toString n.natAbs

/-- The mutable state of `MilitaryMonitor` read by the two view methods:
the snapshot `self.aircraft_data` and the filter panel's
`active_filters` (a Python set of category tags, modelled by its element
list; the view methods only test membership). -/
structure MonitorState where
  aircraft_data : List MilitaryAircraft
  active_filters : List String

/-- One `table.add_row(...)` call of `update_aircraft_table`
(lines 313-321): the six rendered cells of one record.  `ac.callsign or
"NO CALL"` substitutes the sentinel for an empty (falsy) stored
callsign. -/
def renderRow (ac : MilitaryAircraft) : List String :=
  [if ac.callsign = "" then "NO CALL" else ac.callsign,
   ac.aircraft_type,
   ac.owner,
   if ac.altitude = 0 then "Ground" else formatComma0 ac.altitude,
   formatComma0 ac.speed,
   formatF0 ac.heading ++ "°"]

/-- `MilitaryMonitor.update_aircraft_table` (lines 303-321): the rows
added to the cleared table — the list comprehension filters the snapshot
by membership of the category in the active filter set, then each
surviving record is rendered in order. -/
def update_aircraft_table (st : MonitorState) : List (List String) :=
  let filtered := st.aircraft_data.filter
    (fun ac => st.active_filters.contains ac.category)
  filtered.map renderRow

/-- `offensive_categories` of `update_alerts` (line 327). -/
def offensive_categories : List String := ["fighter", "bomber"]

/-- The alert condition of `update_alerts` (line 330):
`ac.category in offensive_categories and ac.altitude > 0`. -/
def isAlert (ac : MilitaryAircraft) : Bool :=
  offensive_categories.contains ac.category && decide (ac.altitude > 0)

/-- One alert line of `update_alerts` (lines 331-334). -/
def renderAlertLine (ac : MilitaryAircraft) : String :=
  "• " ++ (if ac.callsign = "" then "NO CALL" else ac.callsign) ++ " | " ++
    ac.aircraft_type ++ " | " ++ ac.owner ++ " | " ++
    formatComma0 ac.altitude ++ " ft | " ++ formatComma0 ac.speed ++ " kts | " ++
    formatF0 ac.heading ++ "°"

/-- The alert-accumulating loop of `update_alerts` (lines 328-334). -/
def alertLoop : List MilitaryAircraft → List String
  | [] => []
  | ac :: rest =>
    if isAlert ac then renderAlertLine ac :: alertLoop rest
    else alertLoop rest

/-- `MilitaryMonitor.update_alerts` (lines 325-337): the alert lines; the
method iterates the full snapshot and never reads the filter state. -/
def update_alerts (st : MonitorState) : List String :=
  alertLoop st.aircraft_data

/-- The final `content.update(...)` argument of `update_alerts`
(line 337): empty alert list shows the fixed placeholder. -/
def alerts_content (st : MonitorState) : String :=
  if update_alerts st = [] then "No offensive aircraft currently detected."
  else String.intercalate "\n" (update_alerts st)

/-- C5: for every snapshot and active filter set, the table rows are
exactly the renderings of the subsequence of snapshot records whose
category is in the active filter set, in snapshot order — the row list
is a sublist of the full snapshot's row list, so feed order is preserved
with no sorting. -/
theorem update_aircraft_table_spec :
    ∀ st : MonitorState,
      update_aircraft_table st =
        (st.aircraft_data.filter
          (fun ac => st.active_filters.contains ac.category)).map renderRow ∧
      (update_aircraft_table st).Sublist (st.aircraft_data.map renderRow) := by
  intro st
  refine ⟨rfl, ?_⟩
  exact List.Sublist.map renderRow (List.filter_sublist _)

/-- C4: for every snapshot and filter state, the alert list equals the
renderings of the subsequence of the full snapshot whose records are
fighters or bombers with altitude > 0 (grounded ones excluded), and it
is independent of the active filter set. -/
theorem update_alerts_spec :
    ∀ st : MonitorState,
      update_alerts st =
        (st.aircraft_data.filter isAlert).map renderAlertLine ∧
      (update_alerts st).Sublist (st.aircraft_data.map renderAlertLine) ∧
      ∀ f' : List String,
        update_alerts { st with active_filters := f' } = update_alerts st := by
  intro st
  refine ⟨?_, ?_, fun _ => rfl⟩
  · show alertLoop st.aircraft_data = _
    induction st.aircraft_data with
    | nil => rfl
    | cons ac rest ih =>
      by_cases h : isAlert ac
      · simp [alertLoop, List.filter_cons, h, ih]
      · simp only [Bool.not_eq_true] at h
        simp [alertLoop, List.filter_cons, h, ih]
  · show alertLoop st.aircraft_data |>.Sublist _
    induction st.aircraft_data with
    | nil => simp [alertLoop]
    | cons ac rest ih =>
      by_cases h : isAlert ac
      · simpa [alertLoop, h] using ih.cons₂ (renderAlertLine ac)
      · simp only [Bool.not_eq_true] at h
        simpa [alertLoop, h] using ih.cons (renderAlertLine ac)

/-- C10: a record whose stored callsign is the empty string renders, in
both the table row and the alert line, exactly as the same record with
callsign "NO CALL"; in particular the rendered callsign cell is
"NO CALL", so an empty callsign is never displayed. -/
theorem empty_callsign_display :
    ∀ ac : MilitaryAircraft, ac.callsign = "" →
      renderRow ac = renderRow { ac with callsign := "NO CALL" } ∧
      (renderRow ac).head? = some "NO CALL" ∧
      renderAlertLine ac = renderAlertLine { ac with callsign := "NO CALL" } := by
  intro ac h
  have hnc : ("NO CALL" : String) ≠ "" := by decide
  refine ⟨?_, ?_, ?_⟩ <;> simp [renderRow, renderAlertLine, h, hnc]

/-- C10 witness: the display substitution at a concrete empty-callsign
fighter record. -/
theorem empty_callsign_display_witness :
    renderRow ⟨"", "F16", "USAF", 30000, 400, 90, "fighter"⟩ =
      renderRow ⟨"NO CALL", "F16", "USAF", 30000, 400, 90, "fighter"⟩ ∧
    (renderRow ⟨"", "F16", "USAF", 30000, 400, 90, "fighter"⟩).head? = some "NO CALL" ∧
    renderAlertLine ⟨"", "F16", "USAF", 30000, 400, 90, "fighter"⟩ =
      renderAlertLine ⟨"NO CALL", "F16", "USAF", 30000, 400, 90, "fighter"⟩ :=
  empty_callsign_display ⟨"", "F16", "USAF", 30000, 400, 90, "fighter"⟩ rfl

/-- The UI framework's timer primitives as `on_mount` could use them:
`set_timer delay` schedules its callback exactly once, `delay` time
units from now; `set_interval period` is the repeating variant (not
called by this program) firing at every positive multiple of the
period. -/
inductive TimerCall where
  | set_timer (delay : Nat)
  | set_interval (period : Nat)
  deriving Repr, DecidableEq

/-- The times (in time units after mount) at which one scheduled call
fires. -/
def firesAt : TimerCall → Nat → Bool
  | .set_timer d, t => t == d
  | .set_interval p, t => decide (0 < p) && decide (0 < t) && t % p == 0

/-- `MilitaryMonitor.on_mount` (lines 260-265): the timer calls it makes —
a single `self.set_timer(10, self.fetch_and_update)`. -/
def on_mount_timers : List TimerCall := [.set_timer 10]

/-- The times at which `on_mount`'s scheduling runs `fetch_and_update`:
the direct call at t = 0 (line 265) plus the fires of the scheduled
timers. -/
def refresh_fires_at (t : Nat) : Bool :=
  (t == 0) || on_mount_timers.any (fun c => firesAt c t)

/-- C6 (code bug): `on_mount` uses the one-shot `set_timer`, not the
repeating `set_interval`, so automatic refreshes fire at t = 0 and
t = 10 only; no refresh fires at t = 20 (the claimed tick n = 2), so
the claimed fixed-period schedule fails — contradicting the method's own
docstring "Start periodic data refresh on app launch". -/
theorem refresh_not_periodic :
    refresh_fires_at 0 = true ∧ refresh_fires_at 10 = true ∧
    refresh_fires_at 20 = false ∧
    ¬(∀ n : Nat, refresh_fires_at (10 * n) = true) := by
  refine ⟨by decide, by decide, by decide, fun h => ?_⟩
  have := h 2
  simp [refresh_fires_at, on_mount_timers, firesAt] at this

/-- A heap of Python `set` objects (each cell one set of category tags,
modelled by its element list), giving the reference semantics of Python
objects: distinct references may name the same cell. -/
structure Heap where
  cells : List (List String)
  deriving Repr, DecidableEq

/-- Dereference: read the set an object reference names. -/
def Heap.read (h : Heap) (r : Nat) : List String :=
  h.cells.getD r []

/-- In-place mutation of the set an object reference names. -/
def Heap.write (h : Heap) (r : Nat) (v : List String) : Heap :=
  ⟨h.cells.set r v⟩

/-- Python `set.add`: a no-op when the element is present. -/
def pyAdd (s : List String) (x : String) : List String :=
  if s.contains x then s else s ++ [x]

/-- Python `set.discard`: remove the element if present. -/
def pyDiscard (s : List String) (x : String) : List String :=
  s.filter (fun y => y ≠ x)

/-- The `FilterPanel` object: `self.active_filters` is a reference to a
set object on the heap. -/
structure FilterPanelObj where
  active_filters : Nat
  deriving Repr, DecidableEq

/-- `FilterPanel.on_checkbox_changed` (lines 114-121): derive the
category key from the checkbox id, add or discard it in the internal
set, and post `FiltersChanged(self.active_filters)` — the message
payload is the reference `self.active_filters` itself, not a copy.
Returns the mutated heap and the posted payload reference. -/
def on_checkbox_changed (p : FilterPanelObj) (h : Heap)
    (checkboxId : String) (value : Bool) : Heap × Nat :=
  let cat_key := pyReplace checkboxId "filter_" ""
  let s := h.read p.active_filters
  let s' := if value then pyAdd s cat_key else pyDiscard s cat_key
  (h.write p.active_filters s', p.active_filters)

/-- `ac.category in filter_panel.active_filters` as the rest of the
program observes the panel's state (the `isActive` view of §4.2). -/
def isActive (p : FilterPanelObj) (h : Heap) (c : String) : Bool :=
  (h.read p.active_filters).contains c

/-- C9 counterexample: the delivered payload aliases the internal
storage.  Concretely: the panel's set is {fighter, bomber}; toggling
"tanker" on delivers a payload reference; a consumer discarding
"fighter" through that reference changes the panel's own subsequent
`isActive "fighter"` from true to false — so the payload is not a
snapshot copy, refuting the claim. -/
theorem filters_payload_alias_counterexample :
    isActive ⟨0⟩ (on_checkbox_changed ⟨0⟩ ⟨[["fighter", "bomber"]]⟩ "filter_tanker" true).1
      "fighter" = true ∧
    isActive ⟨0⟩
      ((on_checkbox_changed ⟨0⟩ ⟨[["fighter", "bomber"]]⟩ "filter_tanker" true).1.write
        (on_checkbox_changed ⟨0⟩ ⟨[["fighter", "bomber"]]⟩ "filter_tanker" true).2
        (pyDiscard
          ((on_checkbox_changed ⟨0⟩ ⟨[["fighter", "bomber"]]⟩ "filter_tanker" true).1.read
            (on_checkbox_changed ⟨0⟩ ⟨[["fighter", "bomber"]]⟩ "filter_tanker" true).2)
          "fighter"))
      "fighter" = false := by
  refine ⟨by decide, by decide⟩

/-- C9 amended: the change-notification payload is the panel's internal
set reference itself (no copy is taken), so for every valid panel state,
any mutation performed through the delivered payload is observed by all
subsequent `isActive` reads of the panel. -/
theorem filters_payload_aliases_internal :
    ∀ (p : FilterPanelObj) (h : Heap) (cid : String) (v : Bool),
      (on_checkbox_changed p h cid v).2 = p.active_filters ∧
      (p.active_filters < h.cells.length →
        ∀ (s : List String) (c : String),
          isActive p
            ((on_checkbox_changed p h cid v).1.write
              (on_checkbox_changed p h cid v).2 s) c = s.contains c) := by
  intro p h cid v
  refine ⟨rfl, fun hr s c => ?_⟩
  simp only [on_checkbox_changed, isActive, Heap.write, Heap.read]
  rw [List.getD_eq_getElem?_getD, List.getElem?_set_self, Option.getD_some]
  rw [List.length_set]
  exact hr

/-- C9 amended witness: the aliasing observed at a concrete state —
writing {"bomber"} through the payload makes the panel see exactly
{"bomber"}. -/
theorem filters_payload_aliases_internal_witness :
    (on_checkbox_changed ⟨0⟩ ⟨[["fighter"]]⟩ "filter_tanker" true).2 = (0 : Nat) ∧
    isActive ⟨0⟩
      ((on_checkbox_changed ⟨0⟩ ⟨[["fighter"]]⟩ "filter_tanker" true).1.write
        (on_checkbox_changed ⟨0⟩ ⟨[["fighter"]]⟩ "filter_tanker" true).2 ["bomber"])
      "fighter" = (["bomber"] : List String).contains "fighter" :=
  ⟨(filters_payload_aliases_internal ⟨0⟩ ⟨[["fighter"]]⟩ "filter_tanker" true).1,
   (filters_payload_aliases_internal ⟨0⟩ ⟨[["fighter"]]⟩ "filter_tanker" true).2
     (by decide) ["bomber"] "fighter"⟩

end MilitaryMonitor
